import Mathlib

/-!
Verification of the video resolution / probing / snapshot pipeline of
`app.py` (Flask demo application).

The embedding models:
* `get_video_path` — the resource locator (identifier to path mapping with
  an existence check against an abstract filesystem);
* `get_video_metadata` — the metadata prober, parameterised by the external
  inspection capability (the probe call), normalising its structured
  output into a metadata record;
* the `metadata` and `thumbnail` route handlers, down to the decision that
  invokes the external frame-extraction capability.

Python floats are modelled as rationals (`ℚ`); the float builtin is
modelled on its decimal-literal fragment.  Python exceptions are modelled
by an explicit error type `PyErr`; the routes catch exactly the class
`ProbeError` that the source catches, every other error escaping as an
uncaught exception.
-/

namespace KubeconDemo

/-- Numeric value of a list of decimal digit characters (most significant
first), as the float builtin of Python computes it for an all-digit body. -/
def digitsVal (cs : List Char) : ℕ :=
  cs.foldl (fun a c => 10 * a + (c.toNat - 48)) 0

/-- True when every character of the list is a decimal digit. -/
def allDigits (cs : List Char) : Bool :=
  cs.all Char.isDigit

/-- Decimal-literal fragment of the float builtin of Python: optional sign,
then digits with at most one decimal point and at least one digit overall.
Returns the exact rational value, or `none` when the string does not parse
(matching the ValueError the builtin raises).  Special float syntax
(infinities, nan, exponents, whitespace) is outside the model. -/
def parseFloat (s : String) : Option ℚ :=
  match s.toList with
  | '-' :: rest => (parseFloatBody rest).map (fun q => -q)
  | '+' :: rest => parseFloatBody rest
  | cs => parseFloatBody cs
where
  parseFloatBody (cs : List Char) : Option ℚ :=
    let ip := cs.takeWhile (fun c => c ≠ '.')
    match cs.dropWhile (fun c => c ≠ '.') with
    | [] =>
        if !ip.isEmpty && allDigits ip then some (digitsVal ip : ℚ) else none
    | '.' :: fp =>
        if (!ip.isEmpty || !fp.isEmpty) && allDigits ip && allDigits fp then
          some ((digitsVal ip : ℚ) + (digitsVal fp : ℚ) / (10 : ℚ) ^ fp.length)
        else none
    | _ => none

/-- Models the Python string split method with separator "/": the list of
maximal "/"-free substrings, so "a/b" gives ["a", "b"], "" gives [""],
and "1/2/3" gives ["1", "2", "3"]. -/
def splitOnSlash (s : String) : List String :=
  (s.toList.foldr
    (fun c acc =>
      match acc with
      | cur :: rest => if c = '/' then [] :: cur :: rest else (c :: cur) :: rest
      | [] => [])
    [[]]).map (fun cs => String.mk cs)

/-- Default video path constant of `app.py`. -/
def VIDEO_PATH : String := "static/video.mp4"

/-- The deterministic cache path the locator interpolates the identifier
into (the f-string of `get_video_path`). -/
def cachePath (video_id : String) : String :=
  "static/cache/cached_" ++ video_id ++ ".mp4"

/-- `get_video_path` of `app.py`.  The filesystem is abstracted as the
predicate `fsExists` (the `os.path.exists` call); `video_id = none` models
the Python `None` argument, and the Python truthiness test `not video_id`
is false exactly for a non-empty string. -/
def get_video_path (fsExists : String → Bool) (video_id : Option String) :
    Option String :=
  match video_id with
  | none => some VIDEO_PATH
  | some vid =>
    if vid = "" then some VIDEO_PATH
    else if fsExists (cachePath vid) then some (cachePath vid)
    else none

/-- One stream descriptor of the probe output.  `codec_type` is the
declared type; the remaining fields model dictionary entries that may be
absent (the source reads them with `dict.get` and a default). -/
structure ProbeStream where
  codec_type : String
  codec_name : Option String := none
  width : Option Int := none
  height : Option Int := none
  r_frame_rate : Option String := none
deriving DecidableEq

/-- Format-level fields of the probe output; `duration` models the
dictionary entry read with a plain subscript (absence raises KeyError). -/
structure ProbeFormat where
  duration : Option String := none
deriving DecidableEq

/-- Structured output of the external inspection capability. -/
structure ProbeResult where
  streams : List ProbeStream
  format : ProbeFormat
deriving DecidableEq

/-- The metadata record assembled by `get_video_metadata` (the returned
dictionary with keys codec, width, height, duration, framerate). -/
structure VideoMetadata where
  codec : String
  width : Int
  height : Int
  duration : ℚ
  framerate : ℚ
deriving DecidableEq

/-- Python exceptions that can escape the modelled code: the ProbeError
class of `app.py`, the error of the external ffmpeg calls, and the builtin
KeyError and ValueError. -/
inductive PyErr where
  | probeError (msg : String)
  | ffmpegError (msg : String)
  | keyError (key : String)
  | valueError (msg : String)
deriving DecidableEq

/-- Which errors the `except ProbeError` clauses of the route handlers
catch: exactly the ProbeError class. -/
def isProbeError : PyErr → Bool
  | .probeError _ => true
  | _ => false

/-- `get_video_metadata` of `app.py`, parameterised by the external
inspection capability `ffprobe` (the `ffmpeg.probe` call, which either
returns the structured description or raises an ffmpeg error).  Line by
line: select with `next` the first stream whose codec_type is "video",
raising ProbeError when there is none; read codec/width/height with
defaults; read the required format duration (KeyError when absent) and
convert with float (ValueError when unparsable); split r_frame_rate
(default "0/0") on "/" and unpack into exactly two parts (ValueError
otherwise); evaluate the conditional expression
`float(num) / float(den) if float(den) != 0 else 0.0`, which converts the
denominator first and converts the numerator only when the denominator is
nonzero. -/
def get_video_metadata (ffprobe : String → Except String ProbeResult)
    (video_path : String) : Except PyErr VideoMetadata :=
  match ffprobe video_path with
  | .error e => .error (.ffmpegError e)
  | .ok probe =>
    match probe.streams.find? (fun s => s.codec_type == "video") with
    | none => .error (.probeError "No video stream found")
    | some video_stream =>
      let codec := video_stream.codec_name.getD "unknown"
      let width := video_stream.width.getD 0
      let height := video_stream.height.getD 0
      match probe.format.duration with
      | none => .error (.keyError "duration")
      | some durStr =>
        match parseFloat durStr with
        | none => .error (.valueError durStr)
        | some duration =>
          let r_frame_rate := video_stream.r_frame_rate.getD "0/0"
          match splitOnSlash r_frame_rate with
          | [numStr, denStr] =>
            match parseFloat denStr with
            | none => .error (.valueError denStr)
            | some den =>
              if den ≠ 0 then
                match parseFloat numStr with
                | none => .error (.valueError numStr)
                | some num =>
                  .ok ⟨codec, width, height, duration, num / den⟩
              else
                .ok ⟨codec, width, height, duration, 0⟩
          | _ => .error (.valueError r_frame_rate)

/-- Outcome of a route handler, as far as the embedding models it: the
JSON error responses, a successful metadata response, the decision to
invoke the external frame-extraction capability (the ffmpeg
input/output/run chain of the thumbnail handler), and an exception that
escapes the handler uncaught. -/
inductive HttpResult where
  | missingTimestamp
  | notFound (video_id : String)
  | probeFailure (msg : String)
  | outOfBounds
  | metadataOk (m : VideoMetadata)
  | extractFrame (path : String) (timestamp : ℚ)
  | uncaught (e : PyErr)
deriving DecidableEq

/-- The `metadata` route handler of `app.py`: resolve the path (404 when a
non-empty identifier has no cached file), probe, catch exactly ProbeError
as a 500 response, return the record otherwise; any other exception
escapes uncaught. -/
def metadata (fsExists : String → Bool)
    (ffprobe : String → Except String ProbeResult)
    (video_id : Option String) : HttpResult :=
  match get_video_path fsExists video_id with
  | none => .notFound (video_id.getD "")
  | some path =>
    match get_video_metadata ffprobe path with
    | .error (.probeError msg) => .probeFailure msg
    | .error e => .uncaught e
    | .ok m => .metadataOk m

/-- The `thumbnail` route handler of `app.py`, up to the invocation of the
external frame-extraction capability: missing timestamp is a 400, an
unresolved identifier a 404, a ProbeError a 500, a timestamp below 0 or
above the probed duration a 400 out-of-bounds response, and only otherwise
is the ffmpeg extraction chain invoked (with the resolved path and the
timestamp). -/
def thumbnail (fsExists : String → Bool)
    (ffprobe : String → Except String ProbeResult)
    (timestamp : Option ℚ) (video_id : Option String) : HttpResult :=
  match timestamp with
  | none => .missingTimestamp
  | some t =>
    match get_video_path fsExists video_id with
    | none => .notFound (video_id.getD "")
    | some path =>
      match get_video_metadata ffprobe path with
      | .error (.probeError msg) => .probeFailure msg
      | .error e => .uncaught e
      | .ok meta =>
        if t < 0 ∨ t > meta.duration then .outOfBounds
        else .extractFrame path t

/-- A probe result with a single video stream carrying only the given
r_frame_rate field and a format duration of "10": the shape used to
exercise the frame-rate parsing in isolation. -/
def mkProbe (rfr : Option String) : ProbeResult :=
  { streams := [{ codec_type := "video", r_frame_rate := rfr }],
    format := { duration := some "10" } }

/-- A probe result with an audio stream before the video stream, the video
stream fully populated, and a format duration of "10". -/
def fullProbe : ProbeResult :=
  { streams := [⟨"audio", some "aac", none, none, none⟩,
                ⟨"video", some "h264", some 640, some 480, some "30/1"⟩],
    format := { duration := some "10" } }

/-- A probe result with a video stream but no duration entry among the
format-level fields. -/
def noDurationProbe : ProbeResult :=
  { streams := [⟨"video", some "h264", some 640, some 480, some "30/1"⟩],
    format := { duration := none } }

/-- A probe result whose video stream declares a negative width. -/
def negWidthProbe : ProbeResult :=
  { streams := [{ codec_type := "video", width := some (-1) }],
    format := { duration := some "10" } }

/-- The first stream satisfying the codec-type test in a list that starts
with non-video streams is the head of the video suffix. -/
theorem find_first_video (l1 l2 : List ProbeStream) (vs : ProbeStream)
    (h1 : ∀ s ∈ l1, s.codec_type ≠ "video") (h2 : vs.codec_type = "video") :
    (l1 ++ vs :: l2).find? (fun s => s.codec_type == "video") = some vs := by
  induction l1 with
  | nil =>
    rw [List.nil_append]
    exact List.find?_cons_of_pos _ (by simp [h2])
  | cons a l ih =>
    rw [List.cons_append,
      List.find?_cons_of_neg _ (by simp [h1 a (List.mem_cons_self a l)])]
    exact ih fun s hs => h1 s (List.mem_cons_of_mem a hs)

/-- Probing the single-video-stream fixture reduces to the frame-rate
parsing of the given field: split on "/", convert the denominator, branch
on it being nonzero, and only then convert the numerator. -/
theorem mkProbe_framerate_reduction (rfr : String) :
    get_video_metadata (fun _ => .ok (mkProbe (some rfr))) VIDEO_PATH =
      (match splitOnSlash rfr with
       | [numStr, denStr] =>
         match parseFloat denStr with
         | none => .error (.valueError denStr)
         | some den =>
           if den ≠ 0 then
             match parseFloat numStr with
             | none => .error (.valueError numStr)
             | some num => .ok ⟨"unknown", 0, 0, 10, num / den⟩
           else .ok ⟨"unknown", 0, 0, 10, 0⟩
       | _ => .error (.valueError rfr)) := rfl

/-- Elimination principle for a successful probe: the record fields are
the selected stream's fields with their defaults, the duration comes from
a parsed format duration entry, and the framerate from the parsed
frame-rate field with the zero-denominator special case. -/
theorem metadata_ok_fields (p : ProbeResult) (path : String)
    (vs : ProbeStream) (m : VideoMetadata)
    (hvs : p.streams.find? (fun s => s.codec_type == "video") = some vs)
    (hok : get_video_metadata (fun _ => .ok p) path = .ok m) :
    m.codec = vs.codec_name.getD "unknown" ∧
    m.width = vs.width.getD 0 ∧
    m.height = vs.height.getD 0 ∧
    (∃ durStr dq, p.format.duration = some durStr ∧
      parseFloat durStr = some dq ∧ m.duration = dq) ∧
    (∃ numStr denStr d,
      splitOnSlash (vs.r_frame_rate.getD "0/0") = [numStr, denStr] ∧
      parseFloat denStr = some d ∧
      ((d = 0 ∧ m.framerate = 0) ∨
       (d ≠ 0 ∧ ∃ n, parseFloat numStr = some n ∧ m.framerate = n / d))) := by
  simp only [get_video_metadata, hvs] at hok
  rcases hdur : p.format.duration with _ | durStr
  · simp [hdur] at hok
  simp only [hdur] at hok
  rcases hpq : parseFloat durStr with _ | dq
  · simp [hpq] at hok
  simp only [hpq] at hok
  rcases hsp : splitOnSlash (vs.r_frame_rate.getD "0/0") with _ | ⟨a, _ | ⟨b, rest⟩⟩
  · simp [hsp] at hok
  · simp [hsp] at hok
  rcases rest with _ | ⟨c, r⟩
  · simp only [hsp] at hok
    rcases hpd : parseFloat b with _ | d
    · simp [hpd] at hok
    simp only [hpd] at hok
    by_cases hd0 : d = 0
    · rw [if_neg (not_not_intro hd0)] at hok
      injection hok with hm
      subst hm
      exact ⟨rfl, rfl, rfl, ⟨durStr, dq, rfl, hpq, rfl⟩,
        ⟨a, b, d, rfl, hpd, Or.inl ⟨hd0, rfl⟩⟩⟩
    · rw [if_pos hd0] at hok
      rcases hpn : parseFloat a with _ | n
      · simp [hpn] at hok
      simp only [hpn] at hok
      injection hok with hm
      subst hm
      exact ⟨rfl, rfl, rfl, ⟨durStr, dq, rfl, hpq, rfl⟩,
        ⟨a, b, d, rfl, hpd, Or.inr ⟨hd0, n, hpn, rfl⟩⟩⟩
  · simp [hsp] at hok

/-- C1: the resource locator returns the default path for an absent or
empty identifier regardless of the filesystem, and for a non-empty
identifier returns the deterministic cache path exactly when a file exists
there, signalling absence with none otherwise. -/
theorem get_video_path_resolution (fsExists : String → Bool) (s : String) :
    get_video_path fsExists none = some VIDEO_PATH ∧
    get_video_path fsExists (some "") = some VIDEO_PATH ∧
    cachePath s = "static/cache/cached_" ++ s ++ ".mp4" ∧
    (s ≠ "" →
      (fsExists (cachePath s) = true →
        get_video_path fsExists (some s) = some (cachePath s)) ∧
      (fsExists (cachePath s) = false →
        get_video_path fsExists (some s) = none)) := by
  refine ⟨rfl, rfl, rfl, fun hs => ⟨fun hex => ?_, fun hex => ?_⟩⟩ <;>
    simp [get_video_path, hs, hex]

/-- Witness for C1 at the identifier "abc", once with the cache file
present and once with it absent. -/
theorem get_video_path_resolution_witness :
    get_video_path (fun p => p == "static/cache/cached_abc.mp4") (some "abc")
      = some "static/cache/cached_abc.mp4" ∧
    get_video_path (fun _ => false) (some "abc") = none := by
  have h1 := get_video_path_resolution
    (fun p => p == "static/cache/cached_abc.mp4") "abc"
  have h2 := get_video_path_resolution (fun _ => false) "abc"
  exact ⟨(h1.2.2.2 (by decide)).1 (by decide), (h2.2.2.2 (by decide)).2 rfl⟩

/-- C5: a probe result with a video stream but no duration entry makes the
prober fail with a KeyError, which the ProbeError clause of the metadata
handler does not catch, so the exception escapes uncaught instead of being
a classified probe error. -/
theorem missing_duration_uncaught :
    get_video_metadata (fun _ => .ok noDurationProbe) VIDEO_PATH
      = .error (.keyError "duration") ∧
    isProbeError (.keyError "duration") = false ∧
    metadata (fun _ => true) (fun _ => .ok noDurationProbe) none
      = .uncaught (.keyError "duration") :=
  ⟨rfl, rfl, rfl⟩

/-- C8: the prober is a deterministic function of the inspection output:
two inspection capabilities that agree on a path give identical metadata
results on that path. -/
theorem probe_deterministic (f g : String → Except String ProbeResult)
    (path : String) (h : f path = g path) :
    get_video_metadata f path = get_video_metadata g path := by
  unfold get_video_metadata
  rw [h]

/-- Witness for C8: two syntactically different capabilities agreeing on
the default path give the same record. -/
theorem probe_deterministic_witness :
    get_video_metadata (fun _ => .ok fullProbe) VIDEO_PATH
      = get_video_metadata
          (fun p => if p = VIDEO_PATH then .ok fullProbe else .error "io")
          VIDEO_PATH :=
  probe_deterministic _ _ VIDEO_PATH rfl

/-- C9: the locator does not reject a path-traversal identifier; it
interpolates it into the cache path, whose components then contain "..",
so the mapping can denote a file outside the cache directory. -/
theorem traversal_identifier_interpolated :
    get_video_path (fun _ => true) (some "../../../etc/passwd")
      = some "static/cache/cached_../../../etc/passwd.mp4" ∧
    (splitOnSlash "static/cache/cached_../../../etc/passwd.mp4").contains ".."
      = true :=
  ⟨rfl, rfl⟩

/-- C2: the prober parses the frame-rate field "numerator/denominator"
(defaulting to "0/0" when absent) and computes numerator divided by
denominator, with framerate 0 instead of a division fault when the
denominator is zero; in particular "30/1" gives 30, "0/0" gives 0, and
"25000/1001" is within 1/1000 of 24.975. -/
theorem framerate_parsing_correct :
    (∀ rfr numStr denStr n d, splitOnSlash rfr = [numStr, denStr] →
        parseFloat numStr = some n → parseFloat denStr = some d → d ≠ 0 →
        get_video_metadata (fun _ => .ok (mkProbe (some rfr))) VIDEO_PATH
          = .ok ⟨"unknown", 0, 0, 10, n / d⟩) ∧
    (∀ rfr numStr denStr, splitOnSlash rfr = [numStr, denStr] →
        parseFloat denStr = some 0 →
        get_video_metadata (fun _ => .ok (mkProbe (some rfr))) VIDEO_PATH
          = .ok ⟨"unknown", 0, 0, 10, 0⟩) ∧
    get_video_metadata (fun _ => .ok (mkProbe none)) VIDEO_PATH
      = .ok ⟨"unknown", 0, 0, 10, 0⟩ ∧
    get_video_metadata (fun _ => .ok (mkProbe (some "30/1"))) VIDEO_PATH
      = .ok ⟨"unknown", 0, 0, 10, 30⟩ ∧
    get_video_metadata (fun _ => .ok (mkProbe (some "0/0"))) VIDEO_PATH
      = .ok ⟨"unknown", 0, 0, 10, 0⟩ ∧
    get_video_metadata (fun _ => .ok (mkProbe (some "25000/1001"))) VIDEO_PATH
      = .ok ⟨"unknown", 0, 0, 10, 25000 / 1001⟩ ∧
    |(25000 : ℚ) / 1001 - 24975 / 1000| < 1 / 1000 := by
  refine ⟨?_, ?_, rfl, ?_, rfl, rfl, ?_⟩
  · intro rfr numStr denStr n d hsp hn hd hd0
    rw [mkProbe_framerate_reduction rfr]
    simp only [hsp, hd, hn, if_pos hd0]
  · intro rfr numStr denStr hsp hd
    rw [mkProbe_framerate_reduction rfr]
    simp only [hsp, hd, ne_eq, not_true_eq_false, if_neg, not_not_intro rfl,
      if_false]
  · have h : get_video_metadata (fun _ => .ok (mkProbe (some "30/1"))) VIDEO_PATH
        = .ok ⟨"unknown", 0, 0, 10, (30 : ℚ) / 1⟩ := rfl
    rw [h]
    norm_num
  · rw [abs_lt]
    constructor <;> norm_num

/-- Witness for C2 at the frame-rate field "7/2". -/
theorem framerate_parsing_correct_witness :
    get_video_metadata (fun _ => .ok (mkProbe (some "7/2"))) VIDEO_PATH
      = .ok ⟨"unknown", 0, 0, 10, 7 / 2⟩ :=
  framerate_parsing_correct.1 "7/2" "7" "2" 7 2 rfl rfl rfl (by norm_num)

/-- C3: with a resolved path and probed metadata, the thumbnail handler
invokes the frame extraction exactly for timestamps between 0 and the
duration inclusive, and answers out-of-bounds (never reaching the
extraction) for negative timestamps or timestamps beyond the duration. -/
theorem thumbnail_bounds_enforced (fsExists : String → Bool)
    (ffprobe : String → Except String ProbeResult)
    (video_id : Option String) (path : String) (m : VideoMetadata) (t : ℚ)
    (hpath : get_video_path fsExists video_id = some path)
    (hmeta : get_video_metadata ffprobe path = .ok m) :
    (0 ≤ t ∧ t ≤ m.duration →
      thumbnail fsExists ffprobe (some t) video_id = .extractFrame path t) ∧
    ((t < 0 ∨ t > m.duration) →
      thumbnail fsExists ffprobe (some t) video_id = .outOfBounds ∧
      ∀ p u, thumbnail fsExists ffprobe (some t) video_id
        ≠ .extractFrame p u) := by
  have hred : thumbnail fsExists ffprobe (some t) video_id =
      if t < 0 ∨ t > m.duration then .outOfBounds else .extractFrame path t := by
    simp only [thumbnail, hpath, hmeta]
  constructor
  · intro hin
    rw [hred, if_neg]
    push_neg
    exact ⟨hin.1, hin.2⟩
  · intro hout
    rw [hred, if_pos hout]
    exact ⟨rfl, fun p u h => HttpResult.noConfusion h⟩

/-- Witness for C3 with a ten-second probe: timestamp 5 reaches the
extraction, timestamp 11 is rejected out of bounds. -/
theorem thumbnail_bounds_enforced_witness :
    thumbnail (fun _ => true) (fun _ => .ok (mkProbe none)) (some 5) none
      = .extractFrame VIDEO_PATH 5 ∧
    thumbnail (fun _ => true) (fun _ => .ok (mkProbe none)) (some 11) none
      = .outOfBounds := by
  have h5 := thumbnail_bounds_enforced (fun _ => true)
    (fun _ => .ok (mkProbe none)) none VIDEO_PATH ⟨"unknown", 0, 0, 10, 0⟩ 5
    rfl rfl
  have h11 := thumbnail_bounds_enforced (fun _ => true)
    (fun _ => .ok (mkProbe none)) none VIDEO_PATH ⟨"unknown", 0, 0, 10, 0⟩ 11
    rfl rfl
  exact ⟨h5.1 ⟨by norm_num, by norm_num⟩, (h11.2 (Or.inr (by norm_num))).1⟩

/-- C4: the prober selects the first stream whose codec type is "video"
(probing a list with a video-free head equals probing the list starting at
that stream), fails with the ProbeError "No video stream found" when no
stream qualifies, and a failure of the inspection call itself surfaces as
an error distinct from that ProbeError. -/
theorem video_stream_selection :
    (∀ (p : ProbeResult) (path : String),
        (∀ s ∈ p.streams, s.codec_type ≠ "video") →
        get_video_metadata (fun _ => .ok p) path
          = .error (.probeError "No video stream found")) ∧
    (∀ (l1 l2 : List ProbeStream) (vs : ProbeStream) (fmt : ProbeFormat)
        (path : String),
        (∀ s ∈ l1, s.codec_type ≠ "video") → vs.codec_type = "video" →
        get_video_metadata (fun _ => .ok ⟨l1 ++ vs :: l2, fmt⟩) path
          = get_video_metadata (fun _ => .ok ⟨[vs], fmt⟩) path) ∧
    (∀ (ffprobe : String → Except String ProbeResult) (path e : String),
        ffprobe path = .error e →
        get_video_metadata ffprobe path = .error (.ffmpegError e) ∧
        ∀ msg, PyErr.ffmpegError e ≠ .probeError msg) := by
  refine ⟨?_, ?_, ?_⟩
  · intro p path hnone
    have hfind : p.streams.find? (fun s => s.codec_type == "video") = none := by
      rw [List.find?_eq_none]
      intro s hs
      simp [hnone s hs]
    simp only [get_video_metadata, hfind]
  · intro l1 l2 vs fmt path h1 h2
    have ha : (l1 ++ vs :: l2).find? (fun s => s.codec_type == "video")
        = some vs := find_first_video l1 l2 vs h1 h2
    have hb : [vs].find? (fun s => s.codec_type == "video") = some vs :=
      List.find?_cons_of_pos _ (by simp [h2])
    simp only [get_video_metadata, ha, hb]
  · intro ffprobe path e hfail
    refine ⟨?_, fun msg h => PyErr.noConfusion h⟩
    simp only [get_video_metadata, hfail]

/-- Witness for C4: an audio-only probe gives the ProbeError, an audio
stream ahead of the video stream does not change the result, and an
inspection failure surfaces as the distinct ffmpeg error. -/
theorem video_stream_selection_witness :
    get_video_metadata
      (fun _ => .ok ⟨[⟨"audio", some "aac", none, none, none⟩],
        ⟨some "10"⟩⟩) VIDEO_PATH
      = .error (.probeError "No video stream found") ∧
    get_video_metadata (fun _ => .ok fullProbe) VIDEO_PATH
      = get_video_metadata
          (fun _ => .ok ⟨[⟨"video", some "h264", some 640, some 480,
            some "30/1"⟩], ⟨some "10"⟩⟩) VIDEO_PATH ∧
    get_video_metadata (fun _ => .error "corrupt container") VIDEO_PATH
      = .error (.ffmpegError "corrupt container") := by
  refine ⟨video_stream_selection.1 _ VIDEO_PATH (by decide), ?_,
    (video_stream_selection.2.2 _ VIDEO_PATH "corrupt container" rfl).1⟩
  exact video_stream_selection.2.1
    [⟨"audio", some "aac", none, none, none⟩] []
    ⟨"video", some "h264", some 640, some 480, some "30/1"⟩
    ⟨some "10"⟩ VIDEO_PATH (by decide) rfl

/-- C6: on success the record's codec is the stream's codec name or
"unknown" when absent, and width and height are the stream's declared
integers or 0 when absent. -/
theorem stream_field_defaults (p : ProbeResult) (path : String)
    (vs : ProbeStream) (m : VideoMetadata)
    (hvs : p.streams.find? (fun s => s.codec_type == "video") = some vs)
    (hok : get_video_metadata (fun _ => .ok p) path = .ok m) :
    m.codec = vs.codec_name.getD "unknown" ∧
    m.width = vs.width.getD 0 ∧
    m.height = vs.height.getD 0 := by
  have h := metadata_ok_fields p path vs m hvs hok
  exact ⟨h.1, h.2.1, h.2.2.1⟩

/-- Witness for C6 on the populated fixture and on the all-absent
fixture. -/
theorem stream_field_defaults_witness :
    ((VideoMetadata.mk "h264" 640 480 10 (30 / 1)).codec
        = Option.getD (some "h264") "unknown" ∧
      (VideoMetadata.mk "h264" 640 480 10 (30 / 1)).width
        = Option.getD (some 640) 0 ∧
      (VideoMetadata.mk "h264" 640 480 10 (30 / 1)).height
        = Option.getD (some 480) 0) ∧
    ((VideoMetadata.mk "unknown" 0 0 10 0).codec = Option.getD none "unknown" ∧
      (VideoMetadata.mk "unknown" 0 0 10 0).width = Option.getD none 0 ∧
      (VideoMetadata.mk "unknown" 0 0 10 0).height = Option.getD none 0) :=
  ⟨stream_field_defaults fullProbe VIDEO_PATH
      ⟨"video", some "h264", some 640, some 480, some "30/1"⟩
      ⟨"h264", 640, 480, 10, 30 / 1⟩ rfl rfl,
    stream_field_defaults (mkProbe none) VIDEO_PATH
      ⟨"video", none, none, none, none⟩
      ⟨"unknown", 0, 0, 10, 0⟩ rfl rfl⟩

/-- C7 counterexample: a probe result whose video stream declares width -1
makes the prober succeed with a record of negative width, so the
nonnegativity invariant does not hold over all inputs the prober accepts. -/
theorem metadata_invariant_counterexample :
    get_video_metadata (fun _ => .ok negWidthProbe) VIDEO_PATH
      = .ok ⟨"unknown", -1, 0, 10, 0⟩ ∧
    ¬(0 ≤ (VideoMetadata.mk "unknown" (-1) 0 10 0).width) :=
  ⟨rfl, by decide⟩

/-- C7 amended: whenever the prober succeeds and the inspection output is
itself well-formed — declared width and height nonnegative when present,
parsed duration nonnegative, parsed frame-rate numerator and denominator
nonnegative — the record satisfies the invariant: width, height, duration
and framerate are all nonnegative. -/
theorem metadata_invariant_guarded (p : ProbeResult) (path : String)
    (vs : ProbeStream) (m : VideoMetadata)
    (hvs : p.streams.find? (fun s => s.codec_type == "video") = some vs)
    (hok : get_video_metadata (fun _ => .ok p) path = .ok m)
    (hw : 0 ≤ vs.width.getD 0) (hh : 0 ≤ vs.height.getD 0)
    (hdur : ∀ ds q, p.format.duration = some ds → parseFloat ds = some q →
      0 ≤ q)
    (hfr : ∀ ns ds n d, splitOnSlash (vs.r_frame_rate.getD "0/0") = [ns, ds] →
      parseFloat ns = some n → parseFloat ds = some d → 0 ≤ n ∧ 0 ≤ d) :
    0 ≤ m.width ∧ 0 ≤ m.height ∧ 0 ≤ m.duration ∧ 0 ≤ m.framerate := by
  obtain ⟨-, hwid, hhei, ⟨ds, dq, hds, hpq, hmd⟩, ns, dsS, d, hsp, hpd, hcase⟩ :=
    metadata_ok_fields p path vs m hvs hok
  refine ⟨hwid ▸ hw, hhei ▸ hh, hmd ▸ hdur ds dq hds hpq, ?_⟩
  rcases hcase with ⟨-, hfr0⟩ | ⟨hdne, n, hpn, hfrv⟩
  · rw [hfr0]
  · rw [hfrv]
    obtain ⟨hn, hd⟩ := hfr ns dsS n d hsp hpn hpd
    exact div_nonneg hn hd

/-- Witness for C7 amended, on the all-defaults fixture. -/
theorem metadata_invariant_guarded_witness :
    0 ≤ (VideoMetadata.mk "unknown" 0 0 10 0).width ∧
    0 ≤ (VideoMetadata.mk "unknown" 0 0 10 0).height ∧
    0 ≤ (VideoMetadata.mk "unknown" 0 0 10 0).duration ∧
    0 ≤ (VideoMetadata.mk "unknown" 0 0 10 0).framerate :=
  metadata_invariant_guarded (mkProbe none) VIDEO_PATH
    ⟨"video", none, none, none, none⟩ ⟨"unknown", 0, 0, 10, 0⟩
    rfl rfl (by decide) (by decide)
    (by
      show ∀ ds q, some "10" = some ds → parseFloat ds = some q → 0 ≤ q
      intro ds q hds hq
      injection hds with hds'
      subst hds'
      have h10 : parseFloat "10" = some 10 := rfl
      rw [h10] at hq
      injection hq with hq'
      rw [← hq']
      norm_num)
    (by
      show ∀ ns ds n d, splitOnSlash "0/0" = [ns, ds] →
        parseFloat ns = some n → parseFloat ds = some d → 0 ≤ n ∧ 0 ≤ d
      intro ns ds n d hsp hn hd
      rw [show splitOnSlash "0/0" = ["0", "0"] from rfl] at hsp
      injection hsp with h1 h2
      injection h2 with h2 h3
      subst h1
      subst h2
      have h0 : parseFloat "0" = some 0 := rfl
      rw [h0] at hn
      rw [h0] at hd
      injection hn with hn'
      injection hd with hd'
      rw [← hn', ← hd']
      norm_num)

/-- C10 counterexample: the frame-rate field "abc/0" has an unparsable
numerator, yet the prober raises nothing: the denominator converts to 0
first, the conditional expression short-circuits, and probing succeeds
with framerate 0. -/
theorem malformed_framerate_counterexample :
    parseFloat "abc" = none ∧
    get_video_metadata (fun _ => .ok (mkProbe (some "abc/0"))) VIDEO_PATH
      = .ok ⟨"unknown", 0, 0, 10, 0⟩ :=
  ⟨rfl, rfl⟩

/-- C10 amended: the prober raises a ValueError — which the clauses
catching only ProbeError do not handle, so it escapes the metadata route
uncaught — when the frame-rate field does not split on "/" into exactly
two substrings, when the denominator substring is unparsable, or when the
denominator parses to a nonzero value and the numerator substring is
unparsable; the remaining malformed case (unparsable numerator with a
denominator parsing to zero) raises nothing and yields framerate 0. -/
theorem malformed_framerate_valueerror :
    (∀ rfr, (splitOnSlash rfr).length ≠ 2 →
        get_video_metadata (fun _ => .ok (mkProbe (some rfr))) VIDEO_PATH
          = .error (.valueError rfr)) ∧
    (∀ rfr numStr denStr, splitOnSlash rfr = [numStr, denStr] →
        parseFloat denStr = none →
        get_video_metadata (fun _ => .ok (mkProbe (some rfr))) VIDEO_PATH
          = .error (.valueError denStr)) ∧
    (∀ rfr numStr denStr d, splitOnSlash rfr = [numStr, denStr] →
        parseFloat denStr = some d → d ≠ 0 → parseFloat numStr = none →
        get_video_metadata (fun _ => .ok (mkProbe (some rfr))) VIDEO_PATH
          = .error (.valueError numStr)) ∧
    (∀ e, isProbeError (.valueError e) = false) ∧
    metadata (fun _ => true) (fun _ => .ok (mkProbe (some "NaNtext"))) none
      = .uncaught (.valueError "NaNtext") ∧
    metadata (fun _ => true) (fun _ => .ok (mkProbe (some "30"))) none
      = .uncaught (.valueError "30") ∧
    metadata (fun _ => true) (fun _ => .ok (mkProbe (some "1/2/3"))) none
      = .uncaught (.valueError "1/2/3") := by
  refine ⟨?_, ?_, ?_, fun e => rfl, rfl, rfl, rfl⟩
  · intro rfr hlen
    rw [mkProbe_framerate_reduction rfr]
    rcases hsp : splitOnSlash rfr with _ | ⟨a, _ | ⟨b, _ | ⟨c, r⟩⟩⟩
    · rfl
    · rfl
    · exact absurd (show (splitOnSlash rfr).length = 2 by rw [hsp]; rfl) hlen
    · rfl
  · intro rfr numStr denStr hsp hd
    rw [mkProbe_framerate_reduction rfr]
    simp only [hsp, hd]
  · intro rfr numStr denStr d hsp hd hd0 hn
    rw [mkProbe_framerate_reduction rfr]
    simp only [hsp, hd, if_pos hd0, hn]

/-- Witness for C10 amended, at the field "x/y" (denominator unparsable)
and the field "2/0.5x" (denominator parsable and nonzero is not needed
here: the first general part applies to the three-component field). -/
theorem malformed_framerate_valueerror_witness :
    get_video_metadata (fun _ => .ok (mkProbe (some "x/y"))) VIDEO_PATH
      = .error (.valueError "y") ∧
    get_video_metadata (fun _ => .ok (mkProbe (some "z/3"))) VIDEO_PATH
      = .error (.valueError "z") :=
  ⟨malformed_framerate_valueerror.2.1 "x/y" "x" "y" rfl rfl,
    malformed_framerate_valueerror.2.2.1 "z/3" "z" "3" 3 rfl rfl
      (by norm_num) rfl⟩

end KubeconDemo
